import Mathlib

/-!
Verification of the calorie-tracking application's core against its
specification.

Shallow embedding of:

* `src/services/apiClient.ts` — the Gateway Client's error classification
  (`handleApiError`), retry loop (`executeWithRetry`) and the response
  unwrapping in `getFoods` / `searchFood`;
* the Lambda collection-query handler (`handler`) together with its
  database helpers (`fetchFoodItemsFromDB`, `searchFoodItemsInDB`,
  `createFoodItemInDB`) and the fixed fallback catalog (`foodDatabase`).

JavaScript numbers are modelled as integers (every number this API produces
or consumes is integral); stateful pieces (the PostgreSQL backend) are
modelled by an explicit state value threaded into each operation.
-/

namespace CalorieApp

/-- JavaScript values as they occur in this API: the JSON values plus
`undefined`.  Objects are association lists with distinct keys (which is what
`JSON.parse` yields once later duplicates have overwritten earlier ones). -/
inductive JsValue where
  | undefined
  | null
  | bool (b : Bool)
  | num (n : Int)
  | str (s : String)
  | arr (xs : List JsValue)
  | obj (fields : List (String × JsValue))

/-- JavaScript truthiness of a value (`if (v)`).  `NaN` does not occur in the
integral model. -/
def jsTruthy : JsValue → Bool
  | .undefined => false
  | .null => false
  | .bool b => b
  | .num n => n != 0
  | .str s => s != ""
  | .arr _ => true
  | .obj _ => true

/-- JavaScript member access `v.k` (and `v?.k`) for the shapes this code
reads: field lookup on an object, `undefined` on everything else. -/
def jsGet (v : JsValue) (k : String) : JsValue :=
  match v with
  | .obj fields =>
    match fields.find? (fun p => p.1 = k) with
    | some p => p.2
    | none => .undefined
  | _ => .undefined

/-- `Array.isArray`. -/
def jsIsArr : JsValue → Bool
  | .arr _ => true
  | _ => false

/-- Whether a value is `null` or `undefined` (destructuring such a value
throws a `TypeError` in JS). -/
def jsIsNullish : JsValue → Bool
  | .null => true
  | .undefined => true
  | _ => false

/-- The normalized error object produced by the Gateway Client
(`ApiError` in `apiClient.ts`; `handleApiError` always sets `retryable`,
so it is modelled as a plain `Bool`). -/
structure ApiError where
  code : String
  message : String
  statusCode : Option Int := none
  retryable : Bool
deriving Repr, DecidableEq

/-- The failure values that can reach `handleApiError`: a fetch `TypeError`
(message mentioning `fetch`), the HTTP error thrown by `makeRequest`
(carrying a numeric `status`), an auth exception, or anything else. -/
inductive CaughtError where
  | fetchTypeError
  | http (status : Int)
  | notAuthorized
  | other (description : String)
deriving Repr, DecidableEq

/-- `ApiClient.handleApiError`: classifies a caught failure into an
`ApiError` with a `retryable` flag. -/
def handleApiError : CaughtError → ApiError
  | .fetchTypeError =>
    { code := "NETWORK_ERROR"
      message := "Network error. Please check your connection and try again."
      retryable := true }
  | .http status =>
    if status = 401 then
      { code := "UNAUTHORIZED"
        message := "Authentication required. Please sign in again."
        statusCode := some status
        retryable := false }
    else if status = 403 then
      { code := "FORBIDDEN"
        message := "You do not have permission to perform this action."
        statusCode := some status
        retryable := false }
    else if status = 429 then
      { code := "RATE_LIMITED"
        message := "Too many requests. Please try again later."
        statusCode := some status
        retryable := true }
    else if status = 500 then
      { code := "SERVER_ERROR"
        message := "Internal server error. Please try again later."
        statusCode := some status
        retryable := true }
    else if status = 503 then
      { code := "SERVICE_UNAVAILABLE"
        message := "Service temporarily unavailable. Please try again later."
        statusCode := some status
        retryable := true }
    else
      { code := "HTTP_ERROR"
        message := "HTTP " ++ toString status ++ ": Request failed"
        statusCode := some status
        retryable := decide (500 ≤ status) }
  | .notAuthorized =>
    { code := "AUTH_ERROR"
      message := "Authentication failed. Please sign in again."
      retryable := false }
  | .other d =>
    { code := "UNKNOWN_ERROR"
      message := d
      retryable := false }

/-- `ApiClient.maxRetries`. -/
def maxRetries : Nat := 3

/-- `ApiClient.retryDelay` (milliseconds). -/
def retryDelay : Nat := 1000

/-- The observable trace of one `executeWithRetry` run: the final outcome,
the number of attempts made, and the successive backoff delays awaited
between attempts. -/
structure RetryTrace (α : Type) where
  result : Except ApiError α
  attempts : Nat
  delays : List Nat
deriving Repr

/-- `ApiClient.executeWithRetry`: `op k` is the outcome of the attempt made
with `retryCount = k`.  On a failure classified retryable with retry budget
remaining it waits `retryDelay * 2 ^ retryCount` and recurses with
`retryCount + 1`; otherwise it surfaces the classified error. -/
def executeWithRetry (op : Nat → Except CaughtError α) (retryCount : Nat) :
    RetryTrace α :=
  match op retryCount with
  | .ok v => { result := .ok v, attempts := 1, delays := [] }
  | .error e =>
    let apiError := handleApiError e
    if h : apiError.retryable = true ∧ retryCount < maxRetries then
      let rest := executeWithRetry op (retryCount + 1)
      { result := rest.result
        attempts := rest.attempts + 1
        delays := retryDelay * 2 ^ retryCount :: rest.delays }
    else
      { result := .error apiError, attempts := 1, delays := [] }
termination_by maxRetries - retryCount
decreasing_by omega

theorem executeWithRetry_ok (op : Nat → Except CaughtError α) (rc : Nat) (v : α)
    (h : op rc = .ok v) :
    executeWithRetry op rc = { result := .ok v, attempts := 1, delays := [] } := by
  rw [executeWithRetry.eq_def, h]

theorem executeWithRetry_retryStep (op : Nat → Except CaughtError α) (rc : Nat)
    (e : CaughtError) (h : op rc = .error e)
    (hr : (handleApiError e).retryable = true) (hlt : rc < maxRetries) :
    executeWithRetry op rc =
      { result := (executeWithRetry op (rc + 1)).result
        attempts := (executeWithRetry op (rc + 1)).attempts + 1
        delays := retryDelay * 2 ^ rc :: (executeWithRetry op (rc + 1)).delays } := by
  rw [executeWithRetry.eq_def, h]
  simp [hr, hlt]

theorem executeWithRetry_stop (op : Nat → Except CaughtError α) (rc : Nat)
    (e : CaughtError) (h : op rc = .error e)
    (hstop : ¬((handleApiError e).retryable = true ∧ rc < maxRetries)) :
    executeWithRetry op rc =
      { result := .error (handleApiError e), attempts := 1, delays := [] } := by
  rw [executeWithRetry.eq_def, h]
  simp only [dif_neg hstop]

/-- C1: for every operation run through `executeWithRetry`, if every attempt
fails with an error classified retryable, the client makes exactly 4 attempts
(1 initial plus 3 retries) separated by delays of 1000 ms, 2000 ms and
4000 ms, and surfaces the classified error of the last attempt; if the first
attempt fails with an error classified non-retryable, the classified error is
surfaced immediately after that single attempt, with no delays. -/
theorem c1_retry_policy {α : Type} (op : Nat → Except CaughtError α) :
    ((∀ k, k ≤ 3 → ∃ e, op k = .error e ∧ (handleApiError e).retryable = true) →
      (executeWithRetry op 0).attempts = 4 ∧
      (executeWithRetry op 0).delays = [1000, 2000, 4000] ∧
      ∀ e, op 3 = .error e →
        (executeWithRetry op 0).result = .error (handleApiError e)) ∧
    (∀ e, op 0 = .error e → (handleApiError e).retryable = false →
      (executeWithRetry op 0).attempts = 1 ∧
      (executeWithRetry op 0).delays = [] ∧
      (executeWithRetry op 0).result = .error (handleApiError e)) := by
  constructor
  · intro hfail
    obtain ⟨e0, he0, hr0⟩ := hfail 0 (by omega)
    obtain ⟨e1, he1, hr1⟩ := hfail 1 (by omega)
    obtain ⟨e2, he2, hr2⟩ := hfail 2 (by omega)
    obtain ⟨e3, he3, hr3⟩ := hfail 3 (by omega)
    have s0 := executeWithRetry_retryStep op 0 e0 he0 hr0 (by decide)
    have s1 := executeWithRetry_retryStep op 1 e1 he1 hr1 (by decide)
    have s2 := executeWithRetry_retryStep op 2 e2 he2 hr2 (by decide)
    have s3 := executeWithRetry_stop op 3 e3 he3 (by simp [maxRetries])
    refine ⟨?_, ?_, ?_⟩
    · rw [s0, s1, s2, s3]
    · rw [s0, s1, s2, s3]
      simp [retryDelay]
    · intro e he
      have : e3 = e := by
        have := he3.symm.trans he
        exact Except.error.inj this
      subst this
      rw [s0, s1, s2, s3]
  · intro e he hnr
    have hstop : ¬((handleApiError e).retryable = true ∧ 0 < maxRetries) := by
      simp [hnr]
    rw [executeWithRetry_stop op 0 e he hstop]
    exact ⟨rfl, rfl, rfl⟩

theorem c1_retry_policy_witness :
    (executeWithRetry (fun _ => (.error (.http 500) : Except CaughtError Unit)) 0).attempts
        = 4 ∧
    (executeWithRetry (fun _ => (.error (.http 401) : Except CaughtError Unit)) 0).attempts
        = 1 :=
  ⟨((c1_retry_policy (fun _ => (.error (.http 500) : Except CaughtError Unit))).1
      (fun _ _ => ⟨.http 500, rfl, by decide⟩)).1,
   ((c1_retry_policy (fun _ => (.error (.http 401) : Except CaughtError Unit))).2
      (.http 401) rfl (by decide)).1⟩

/-- C2 counterexample: the claim maps every 5xx status to SERVER_ERROR or
SERVICE_UNAVAILABLE, but status 502 is classified HTTP_ERROR (retryable). -/
theorem c2_counterexample :
    (handleApiError (.http 502)).code = "HTTP_ERROR" ∧
    (handleApiError (.http 502)).code ≠ "SERVER_ERROR" ∧
    (handleApiError (.http 502)).code ≠ "SERVICE_UNAVAILABLE" ∧
    (handleApiError (.http 502)).retryable = true := by
  exact ⟨rfl, by decide, by decide, rfl⟩

/-- C2 (amended): `handleApiError` classifies HTTP statuses as: 401 →
UNAUTHORIZED non-retryable; 403 → FORBIDDEN non-retryable; 429 →
RATE_LIMITED retryable; 500 → SERVER_ERROR retryable; 503 →
SERVICE_UNAVAILABLE retryable; every other 5xx status → HTTP_ERROR
retryable; every other 4xx status → HTTP_ERROR non-retryable.  The original
HTTP status is always recorded in `statusCode`. -/
theorem c2_error_classification (s : Int) :
    (handleApiError (.http s)).statusCode = some s ∧
    (s = 401 → (handleApiError (.http s)).code = "UNAUTHORIZED" ∧
      (handleApiError (.http s)).retryable = false) ∧
    (s = 403 → (handleApiError (.http s)).code = "FORBIDDEN" ∧
      (handleApiError (.http s)).retryable = false) ∧
    (s = 429 → (handleApiError (.http s)).code = "RATE_LIMITED" ∧
      (handleApiError (.http s)).retryable = true) ∧
    (s = 500 → (handleApiError (.http s)).code = "SERVER_ERROR" ∧
      (handleApiError (.http s)).retryable = true) ∧
    (s = 503 → (handleApiError (.http s)).code = "SERVICE_UNAVAILABLE" ∧
      (handleApiError (.http s)).retryable = true) ∧
    (500 ≤ s → s ≤ 599 → s ≠ 500 → s ≠ 503 →
      (handleApiError (.http s)).code = "HTTP_ERROR" ∧
      (handleApiError (.http s)).retryable = true) ∧
    (400 ≤ s → s < 500 → s ≠ 401 → s ≠ 403 → s ≠ 429 →
      (handleApiError (.http s)).code = "HTTP_ERROR" ∧
      (handleApiError (.http s)).retryable = false) := by
  unfold handleApiError
  by_cases h1 : s = 401 <;> by_cases h2 : s = 403 <;> by_cases h3 : s = 429 <;>
    by_cases h4 : s = 500 <;> by_cases h5 : s = 503 <;>
    simp [h1, h2, h3, h4, h5] <;> omega

theorem c2_error_classification_witness :
    (handleApiError (.http 502)).code = "HTTP_ERROR" ∧
    (handleApiError (.http 502)).retryable = true ∧
    (handleApiError (.http 404)).retryable = false :=
  ⟨((c2_error_classification 502).2.2.2.2.2.2.1 (by omega) (by omega) (by omega)
      (by omega)).1,
   ((c2_error_classification 502).2.2.2.2.2.2.1 (by omega) (by omega) (by omega)
      (by omega)).2,
   ((c2_error_classification 404).2.2.2.2.2.2.2 (by omega) (by omega) (by omega)
      (by omega) (by omega)).2⟩

/-! ### String utilities shared by the handler model

These model the JavaScript string operations the Lambda handler uses
(`includes`, `endsWith`, `split`, `toLowerCase`, `parseInt`, `String()`,
`Number()`) and PostgreSQL's `LIKE` / `LOWER`. -/

/-- ASCII lowercasing: the fragment of JS `toLowerCase` and SQL `LOWER`
exercised by this application (all names and search terms involved are
ASCII; Unicode case mapping is out of scope). -/
def lowerChar (c : Char) : Char :=
  match c with
  | 'A' => 'a' | 'B' => 'b' | 'C' => 'c' | 'D' => 'd' | 'E' => 'e' | 'F' => 'f'
  | 'G' => 'g' | 'H' => 'h' | 'I' => 'i' | 'J' => 'j' | 'K' => 'k' | 'L' => 'l'
  | 'M' => 'm' | 'N' => 'n' | 'O' => 'o' | 'P' => 'p' | 'Q' => 'q' | 'R' => 'r'
  | 'S' => 's' | 'T' => 't' | 'U' => 'u' | 'V' => 'v' | 'W' => 'w' | 'X' => 'x'
  | 'Y' => 'y' | 'Z' => 'z'
  | c => c

/-- JS `s.toLowerCase()` / SQL `LOWER(s)` on ASCII data. -/
def lowerStr (s : String) : String :=
  String.mk (s.toList.map lowerChar)

/-- Substring containment on character lists: JS `String.prototype.includes`. -/
def containsList (needle : List Char) : List Char → Bool
  | [] => needle.isEmpty
  | c :: rest => needle.isPrefixOf (c :: rest) || containsList needle rest

/-- JS `s.includes(sub)`. -/
def strIncludes (s sub : String) : Bool :=
  containsList sub.toList s.toList

/-- JS `s.endsWith(suffix)`. -/
def strEndsWith (s suffix : String) : Bool :=
  suffix.toList.isSuffixOf s.toList

/-- `parts[parts.length - 1]` for the (never empty) result of a JS
`split`. -/
def segLast (parts : List String) : String :=
  parts.getLastD ""

/-- Splitting a character list at every occurrence of `sep` (JS
`String.prototype.split` with a single-character separator: empty input
yields `[""]`, adjacent separators yield empty segments). -/
def splitOnChar (sep : Char) : List Char → List (List Char)
  | [] => [[]]
  | c :: rest =>
    if c = sep then [] :: splitOnChar sep rest
    else
      match splitOnChar sep rest with
      | [] => [[c]]
      | g :: gs => (c :: g) :: gs

/-- JS `path.split('/')`. -/
def splitSlash (s : String) : List String :=
  (splitOnChar '/' s.toList).map String.mk

/-- The longest leading run of decimal digits, as a number; `none` when the
run is empty. -/
def leadingNat (cs : List Char) : Option Nat :=
  let ds := cs.takeWhile Char.isDigit
  if ds.isEmpty then none
  else some (ds.foldl (fun acc c => 10 * acc + (c.toNat - 48)) 0)

/-- JS `parseInt(s)` in radix 10: skip leading whitespace, read an optional
sign and then the longest leading digit run, ignoring any trailing
characters; no digits yields `NaN`, modelled as `none`.  (The `0x…` hex form
does not occur in this API's path segments and is omitted.) -/
def jsParseInt (s : String) : Option Int :=
  let cs := s.toList.dropWhile (fun c => c = ' ' ∨ c = '\t' ∨ c = '\n' ∨ c = '\r')
  match cs with
  | '-' :: rest => (leadingNat rest).map (fun n => -(n : Int))
  | '+' :: rest => (leadingNat rest).map (fun n => (n : Int))
  | _ => (leadingNat cs).map (fun n => (n : Int))

/-- JS `String(x)` on the value shapes this API handles.  Array rendering is
approximated by the empty string (JS joins the elements; a `name` field is
never an array in practice). -/
def jsStringOf : JsValue → String
  | .str s => s
  | .num n => toString n
  | .bool true => "true"
  | .bool false => "false"
  | .null => "null"
  | .undefined => "undefined"
  | .arr _ => ""
  | .obj _ => "[object Object]"

/-- JS `Number(x)` restricted to this model's integral numbers: numbers,
booleans and `null` coerce as in JS; a string of decimal digits (with
optional sign, surrounding whitespace allowed, empty giving 0) parses;
every other value coerces to `NaN` in JS, which is modelled as `null`
(also how `NaN` serialises in JSON). -/
def jsNumberOf : JsValue → JsValue
  | .num n => .num n
  | .bool true => .num 1
  | .bool false => .num 0
  | .null => .num 0
  | .str s =>
    let t := ((s.toList.dropWhile (fun c => c = ' ' ∨ c = '\t' ∨ c = '\n' ∨ c = '\r')).reverse.dropWhile
      (fun c => c = ' ' ∨ c = '\t' ∨ c = '\n' ∨ c = '\r')).reverse
    match t with
    | [] => .num 0
    | '-' :: rest =>
      if rest ≠ [] ∧ rest.all Char.isDigit then
        .num (-(((rest.foldl (fun acc c => 10 * acc + (c.toNat - 48)) 0) : Nat) : Int))
      else .null
    | '+' :: rest =>
      if rest ≠ [] ∧ rest.all Char.isDigit then
        .num (((rest.foldl (fun acc c => 10 * acc + (c.toNat - 48)) 0) : Nat) : Int)
      else .null
    | _ =>
      if t.all Char.isDigit then
        .num (((t.foldl (fun acc c => 10 * acc + (c.toNat - 48)) 0) : Nat) : Int)
      else .null
  | _ => .null

/-- All suffixes of a list, longest first (the list itself down to `[]`). -/
def listSuffixes : List Char → List (List Char)
  | [] => [[]]
  | c :: rest => (c :: rest) :: listSuffixes rest

/-- PostgreSQL `LIKE` pattern matching: `%` matches any character sequence
(realised here by trying every suffix of the subject), `_` matches exactly
one character, `\` escapes the following pattern character; every other
pattern character matches itself.  (A trailing lone `\`, an error in
PostgreSQL, matches nothing here.) -/
def likeMatch : List Char → List Char → Bool
  | [], s => s.isEmpty
  | c :: p, s =>
    if c = '%' then
      (listSuffixes s).any (fun t => likeMatch p t)
    else if c = '\\' then
      match p with
      | [] => false
      | e :: p2 =>
        match s with
        | [] => false
        | c2 :: s2 => e == c2 && likeMatch p2 s2
    else if c = '_' then
      match s with
      | [] => false
      | _ :: s2 => likeMatch p s2
    else
      match s with
      | [] => false
      | c2 :: s2 => c == c2 && likeMatch p s2

/-! ### The collection-query handler (Lambda) -/

/-- A row of the `food_items` table / an item of the API's data model. -/
structure FoodItem where
  id : Int
  name : String
  calories : Int
deriving Repr, DecidableEq

/-- The JSON object a `FoodItem` serialises to. -/
def foodToJs (f : FoodItem) : JsValue :=
  .obj [("id", .num f.id), ("name", .str f.name), ("calories", .num f.calories)]

/-- Ordering of rows by the `id` column. -/
def byId (a b : FoodItem) : Prop := a.id ≤ b.id

instance : DecidableRel byId := fun a b => inferInstanceAs (Decidable (a.id ≤ b.id))

instance : IsTotal FoodItem byId := ⟨fun a b => Int.le_total a.id b.id⟩

instance : IsTrans FoodItem byId := ⟨fun _ _ _ h1 h2 => le_trans h1 h2⟩

/-- SQL `ORDER BY id ASC` over the table's rows. -/
def orderById (rows : List FoodItem) : List FoodItem :=
  List.insertionSort byId rows

/-- The PostgreSQL backend as seen by one handler invocation.  `ok = false`
covers both a failed connection and a failing query (each database helper
returns `null` in either case); `rows` is the current contents of the
`food_items` table. -/
structure DBState where
  ok : Bool
  rows : List FoodItem

/-- `fetchFoodItemsFromDB`: `SELECT id, name, calories FROM food_items ORDER
BY id ASC`, or `null` when the database is unavailable. -/
def fetchFoodItemsFromDB (st : DBState) : Option (List FoodItem) :=
  if st.ok then some (orderById st.rows) else none

/-- `searchFoodItemsInDB`: `SELECT … WHERE LOWER(name) LIKE LOWER($1) ORDER
BY id ASC` with `$1 = '%' ++ searchTerm ++ '%'`, or `null` when the database
is unavailable.  (`LOWER` fixes `%`, so lowering the whole pattern equals
wrapping the lowered term in `%`s, the form used here.) -/
def searchFoodItemsInDB (st : DBState) (searchTerm : String) :
    Option (List FoodItem) :=
  if st.ok then
    some ((orderById st.rows).filter fun item =>
      likeMatch ('%' :: (lowerStr searchTerm).toList ++ ['%'])
        (lowerStr item.name).toList)
  else none

/-- `COALESCE(MAX(id), 0)` over the table. -/
def dbMaxId : List FoodItem → Int
  | [] => 0
  | r :: rs => (rs.map FoodItem.id).foldl max r.id

/-- `createFoodItemInDB`: computes the next id as `COALESCE(MAX(id), 0) + 1`
and inserts `(id, name, calories)`, returning the inserted row.  The INSERT's
parameters are the raw request-body values; it succeeds exactly when they fit
the column types (a string name and a numeric calories) and the database is
available. -/
def createFoodItemInDB (st : DBState) (name calories : JsValue) :
    Option FoodItem :=
  if st.ok then
    match name, calories with
    | .str s, .num n => some { id := dbMaxId st.rows + 1, name := s, calories := n }
    | _, _ => none
  else none

/-- The fixed 10-item fallback catalog (`foodDatabase` in the handler). -/
def foodDatabase : List FoodItem :=
  [ { id := 1, name := "Apple", calories := 95 },
    { id := 2, name := "Banana", calories := 105 },
    { id := 3, name := "Chicken Breast (100g)", calories := 165 },
    { id := 4, name := "Rice (1 cup cooked)", calories := 205 },
    { id := 5, name := "Broccoli (100g)", calories := 34 },
    { id := 6, name := "Salmon (100g)", calories := 208 },
    { id := 7, name := "Greek Yogurt (1 cup)", calories := 130 },
    { id := 8, name := "Almonds (28g)", calories := 164 },
    { id := 9, name := "Avocado (1 medium)", calories := 234 },
    { id := 10, name := "Oatmeal (1 cup cooked)", calories := 154 } ]

/-- `Math.max(...foodDatabase.map(f => f.id))`.  (JS gives `-Infinity` on an
empty argument list; the catalog is a fixed nonempty literal, so that case
never arises.) -/
def mathMaxList : List Int → Int
  | [] => 0
  | x :: xs => xs.foldl max x

/-- `item.id === parseInt(idStr)`: strict equality, never true against
`NaN`. -/
def idMatch (item : FoodItem) : Option Int → Bool
  | some n => item.id == n
  | none => false

/-- The inbound API-Gateway event, restricted to the fields the handler
reads.  `body` is the JSON value `JSON.parse(event.body || '{}')` produces
(an absent body parses to the empty object) and is meaningful only when
`bodyWellFormed` is true; when it is false that parse throws and the
top-level catch answers 500. -/
structure Event where
  httpMethod : String
  path : String
  /-- `event.queryStringParameters?.name` -/
  queryName : Option String
  body : JsValue
  bodyWellFormed : Bool

/-- The handler's response: status code, headers, and the JSON value passed
to `JSON.stringify` as the body. -/
structure Response where
  statusCode : Nat
  headers : List (String × String)
  body : JsValue

/-- The CORS/content-type header set attached to every response. -/
def corsHeaders : List (String × String) :=
  [ ("Access-Control-Allow-Origin", "*"),
    ("Access-Control-Allow-Headers",
      "Content-Type,X-Amz-Date,Authorization,X-Api-Key,X-Amz-Security-Token,X-Requested-With"),
    ("Access-Control-Allow-Methods", "GET,POST,PUT,DELETE,OPTIONS"),
    ("Content-Type", "application/json") ]

/-- The 500 envelope produced by the handler's top-level catch. -/
def serverErrorResponse (details : String) : Response :=
  { statusCode := 500
    headers := corsHeaders
    body := .obj [("success", .bool false),
                  ("error", .str "Internal server error"),
                  ("details", .str details)] }

/-- The OPTIONS preflight short-circuit. -/
def preflightResponse : Response :=
  { statusCode := 200
    headers := corsHeaders
    body := .obj [("message", .str "CORS preflight successful")] }

/-- The `GET /foods` branch: all rows from the database, or the fallback
catalog when the database is unavailable. -/
def listFoodsResponse (st : DBState) : Response :=
  match fetchFoodItemsFromDB st with
  | some foodItems =>
    { statusCode := 200
      headers := corsHeaders
      body := .obj [("success", .bool true),
                    ("data", .arr (foodItems.map foodToJs)),
                    ("message", .str "Food items retrieved from PostgreSQL database"),
                    ("source", .str "database"),
                    ("count", .num foodItems.length),
                    ("debug", .str "Successfully fetched from database")] }
  | none =>
    { statusCode := 200
      headers := corsHeaders
      body := .obj [("success", .bool true),
                    ("data", .arr (foodDatabase.map foodToJs)),
                    ("message", .str "Food items retrieved from fallback data (database not available)"),
                    ("source", .str "fallback"),
                    ("debug", .str "No database client initialized")] }

/-- The id the `GET /foods/{id}` branch extracts from a path:
`parseInt(path.split('/').pop())`, `none` for `NaN`. -/
def pathId (path : String) : Option Int :=
  jsParseInt (segLast (splitSlash path))

/-- The `find` over the fetched database rows in the `GET /foods/{id}`
branch (`none` also when the database is unavailable). -/
def storeLookup (st : DBState) (path : String) : Option FoodItem :=
  match fetchFoodItemsFromDB st with
  | some foodItems => foodItems.find? (fun item => idMatch item (pathId path))
  | none => none

/-- The `find` over the fallback catalog in the `GET /foods/{id}` branch. -/
def fallbackLookup (path : String) : Option FoodItem :=
  foodDatabase.find? (fun f => idMatch f (pathId path))

/-- The `GET /foods/{id}` branch: the final path segment is parsed with
`parseInt` and looked up first among the database rows, then in the fallback
catalog; absent from both it is a 404. -/
def getFoodByIdResponse (st : DBState) (path : String) : Response :=
  match storeLookup st path with
  | some foodItem =>
    { statusCode := 200
      headers := corsHeaders
      body := .obj [("success", .bool true),
                    ("data", foodToJs foodItem),
                    ("source", .str "database")] }
  | none =>
    match fallbackLookup path with
    | none =>
      { statusCode := 404
        headers := corsHeaders
        body := .obj [("success", .bool false),
                      ("error", .str "Food item not found")] }
    | some food =>
      { statusCode := 200
        headers := corsHeaders
        body := .obj [("success", .bool true),
                      ("data", foodToJs food),
                      ("source", .str "fallback")] }

/-- `event.queryStringParameters?.name?.toLowerCase()`, with the missing
case collapsed to the empty string (both are rejected by the same falsiness
test, `!searchName`). -/
def lowerQuery : Option String → String
  | some qn => lowerStr qn
  | none => ""

/-- The in-process fallback filter of the search branch:
`foodDatabase.filter(food => food.name.toLowerCase().includes(searchName))`. -/
def fallbackSearch (searchName : String) : List FoodItem :=
  foodDatabase.filter (fun food => strIncludes (lowerStr food.name) searchName)

/-- The `GET /foods/search?name=…` branch: the lowercased term is required
(400 when missing or empty); the database search is the `LIKE` query, the
fallback an in-process case-insensitive substring filter of the catalog. -/
def searchResponse (st : DBState) (queryName : Option String) : Response :=
  if queryName = none ∨ lowerQuery queryName = "" then
    { statusCode := 400
      headers := corsHeaders
      body := .obj [("success", .bool false),
                    ("error", .str "Name parameter is required")] }
  else
    match searchFoodItemsInDB st (lowerQuery queryName) with
    | some foodItems =>
      { statusCode := 200
        headers := corsHeaders
        body := .obj [("success", .bool true),
                      ("data", .arr (foodItems.map foodToJs)),
                      ("query", .str (lowerQuery queryName)),
                      ("message", .str ("Found " ++ toString foodItems.length ++ " matching items in database")),
                      ("source", .str "database")] }
    | none =>
      { statusCode := 200
        headers := corsHeaders
        body := .obj [("success", .bool true),
                      ("data", .arr ((fallbackSearch (lowerQuery queryName)).map foodToJs)),
                      ("query", .str (lowerQuery queryName)),
                      ("message", .str ("Found " ++ toString (fallbackSearch (lowerQuery queryName)).length ++ " matching items in fallback data")),
                      ("source", .str "fallback")] }

/-- The `POST /foods` branch: validates `name`/`calories` by JS truthiness
(400 when either is falsy), then inserts via the database or synthesizes the
non-persistent fallback record.  An unparsable body, or a body that cannot
be destructured, throws and is answered by the top-level catch's 500. -/
def createResponse (st : DBState) (body : JsValue) (wellFormed : Bool) : Response :=
  if wellFormed = false then
    serverErrorResponse "JSON parse error"
  else if jsIsNullish body = true then
    serverErrorResponse "Cannot destructure request body"
  else if jsTruthy (jsGet body "name") = false ∨ jsTruthy (jsGet body "calories") = false then
    { statusCode := 400
      headers := corsHeaders
      body := .obj [("success", .bool false),
                    ("error", .str "Name and calories are required")] }
  else
    match createFoodItemInDB st (jsGet body "name") (jsGet body "calories") with
    | some foodItem =>
      { statusCode := 201
        headers := corsHeaders
        body := .obj [("success", .bool true),
                      ("data", foodToJs foodItem),
                      ("message", .str "Food item created in PostgreSQL database"),
                      ("source", .str "database")] }
    | none =>
      { statusCode := 201
        headers := corsHeaders
        body := .obj [("success", .bool true),
                      ("data", .obj [("id", .num (mathMaxList (foodDatabase.map FoodItem.id) + 1)),
                                     ("name", .str (jsStringOf (jsGet body "name"))),
                                     ("calories", jsNumberOf (jsGet body "calories"))]),
                      ("message", .str "Food item created in fallback storage (not persistent)"),
                      ("source", .str "fallback")] }

/-- The unmatched-route 404. -/
def routeNotFoundResponse (method path : String) : Response :=
  { statusCode := 404
    headers := corsHeaders
    body := .obj [("success", .bool false),
                  ("error", .str ("Route not found: " ++ method ++ " " ++ path)),
                  ("availableRoutes",
                    .arr [.str "GET /foods - Get all food items",
                          .str "GET /foods/{id} - Get specific food item",
                          .str "GET /foods/search?name={name} - Search food items",
                          .str "POST /foods - Create new food item"])] }

/-- The source's routing cascade over the branch responses above, after the
OPTIONS short-circuit and the `event.path || '/'` defaulting. -/
def dispatchRoute (st : DBState) (method path : String) (queryName : Option String)
    (body : JsValue) (wellFormed : Bool) : Response :=
  if method = "GET" ∧ (path = "/foods" ∨ strEndsWith path "/foods" = true) then
    listFoodsResponse st
  else if method = "GET" ∧ strIncludes path "/foods/" = true ∧
      strIncludes path "/search" = false then
    getFoodByIdResponse st path
  else if method = "GET" ∧ strIncludes path "/search" = true then
    searchResponse st queryName
  else if method = "POST" ∧ (path = "/foods" ∨ strEndsWith path "/foods" = true) then
    createResponse st body wellFormed
  else
    routeNotFoundResponse method path

/-- The Lambda collection-query handler, as a function of the database
state and the inbound event.  (The INSERT's effect on the table is not
observed by any response, so only the response is returned.) -/
def handler (st : DBState) (e : Event) : Response :=
  if e.httpMethod = "OPTIONS" then
    preflightResponse
  else
    dispatchRoute st e.httpMethod (if e.path = "" then "/" else e.path)
      e.queryName e.body e.bodyWellFormed

/-! ### Route-dispatch lemmas -/

theorem path_ne_empty_of_foods {p : String}
    (hp : p = "/foods" ∨ strEndsWith p "/foods" = true) : p ≠ "" := by
  rintro rfl
  rcases hp with h | h
  · exact absurd h (by decide)
  · exact absurd h (by decide)

theorem handler_eq_list (st : DBState) (e : Event)
    (hm : e.httpMethod = "GET")
    (hp : e.path = "/foods" ∨ strEndsWith e.path "/foods" = true) :
    handler st e = listFoodsResponse st := by
  have hne : e.path ≠ "" := path_ne_empty_of_foods hp
  simp only [handler, dispatchRoute, hm, if_neg hne, hp]
  simp

theorem handler_eq_getById (st : DBState) (e : Event)
    (hm : e.httpMethod = "GET")
    (hnl : ¬(e.path = "/foods" ∨ strEndsWith e.path "/foods" = true))
    (hin : strIncludes e.path "/foods/" = true)
    (hns : strIncludes e.path "/search" = false) :
    handler st e = getFoodByIdResponse st e.path := by
  have hne : e.path ≠ "" := by
    intro h
    rw [h] at hin
    exact absurd hin (by decide)
  simp only [handler, dispatchRoute, hm, if_neg hne, hin, hns]
  simp [hnl]

theorem handler_eq_search (st : DBState) (e : Event)
    (hm : e.httpMethod = "GET")
    (hnl : ¬(e.path = "/foods" ∨ strEndsWith e.path "/foods" = true))
    (hs : strIncludes e.path "/search" = true) :
    handler st e = searchResponse st e.queryName := by
  have hne : e.path ≠ "" := by
    intro h
    rw [h] at hs
    exact absurd hs (by decide)
  simp only [handler, dispatchRoute, hm, if_neg hne, hs]
  simp [hnl]

theorem handler_eq_post (st : DBState) (e : Event)
    (hm : e.httpMethod = "POST")
    (hp : e.path = "/foods" ∨ strEndsWith e.path "/foods" = true) :
    handler st e = createResponse st e.body e.bodyWellFormed := by
  have hne : e.path ≠ "" := path_ne_empty_of_foods hp
  simp only [handler, dispatchRoute, hm, if_neg hne, hp]
  simp

/-! ### C8: CORS headers on every response -/

theorem headers_preflight : preflightResponse.headers = corsHeaders := rfl

theorem headers_listFoods (st : DBState) :
    (listFoodsResponse st).headers = corsHeaders := by
  unfold listFoodsResponse
  split <;> rfl

theorem headers_getById (st : DBState) (p : String) :
    (getFoodByIdResponse st p).headers = corsHeaders := by
  unfold getFoodByIdResponse
  split
  · rfl
  · split <;> rfl

theorem headers_search (st : DBState) (qn : Option String) :
    (searchResponse st qn).headers = corsHeaders := by
  unfold searchResponse
  split
  · rfl
  · split <;> rfl

theorem headers_create (st : DBState) (b : JsValue) (w : Bool) :
    (createResponse st b w).headers = corsHeaders := by
  unfold createResponse
  split
  · rfl
  · split
    · rfl
    · split
      · rfl
      · split <;> rfl

theorem mem_corsHeaders_origin : ("Access-Control-Allow-Origin", "*") ∈ corsHeaders := by
  simp [corsHeaders]

theorem mem_corsHeaders_contentType :
    ("Content-Type", "application/json") ∈ corsHeaders := by
  simp [corsHeaders]

theorem headers_routeNotFound (m p : String) :
    (routeNotFoundResponse m p).headers = corsHeaders := rfl

/-- C8: every response the handler produces — every success response, every
400/404/500 error envelope, and the OPTIONS preflight — carries exactly the
CORS header set, which consists of `Access-Control-Allow-Origin`,
`Access-Control-Allow-Headers`, `Access-Control-Allow-Methods` and
`Content-Type: application/json`. -/
theorem c8_cors_on_every_response (st : DBState) (e : Event) :
    (handler st e).headers = corsHeaders ∧
    ("Access-Control-Allow-Origin", "*") ∈ corsHeaders ∧
    (∃ v, ("Access-Control-Allow-Headers", v) ∈ corsHeaders) ∧
    (∃ v, ("Access-Control-Allow-Methods", v) ∈ corsHeaders) ∧
    ("Content-Type", "application/json") ∈ corsHeaders := by
  refine ⟨?_, mem_corsHeaders_origin,
    ⟨"Content-Type,X-Amz-Date,Authorization,X-Api-Key,X-Amz-Security-Token,X-Requested-With",
      by simp [corsHeaders]⟩,
    ⟨"GET,POST,PUT,DELETE,OPTIONS", by simp [corsHeaders]⟩,
    mem_corsHeaders_contentType⟩
  unfold handler
  split
  · exact headers_preflight
  · unfold dispatchRoute
    repeat' split
    all_goals
      first
      | exact headers_listFoods st
      | exact headers_getById st _
      | exact headers_search st _
      | exact headers_create st _ _
      | exact headers_routeNotFound _ _

/-! ### C4: fallback catalog on store failure -/

/-- C4: whenever the store connection cannot be established or the list
query fails (`fetchFoodItemsFromDB` yields `null`), a GET at the collection
root responds 200 with `success: true`, `source: "fallback"` and exactly the
fixed 10-item fallback catalog, rather than an error response. -/
theorem c4_fallback_catalog (st : DBState) (e : Event)
    (hdb : fetchFoodItemsFromDB st = none)
    (hm : e.httpMethod = "GET")
    (hp : e.path = "/foods" ∨ strEndsWith e.path "/foods" = true) :
    handler st e =
      { statusCode := 200
        headers := corsHeaders
        body := .obj [("success", .bool true),
                      ("data", .arr (foodDatabase.map foodToJs)),
                      ("message", .str "Food items retrieved from fallback data (database not available)"),
                      ("source", .str "fallback"),
                      ("debug", .str "No database client initialized")] } ∧
    foodDatabase.length = 10 := by
  rw [handler_eq_list st e hm hp]
  refine ⟨?_, rfl⟩
  unfold listFoodsResponse
  rw [hdb]

theorem c4_fallback_catalog_witness :
    handler ⟨false, []⟩ ⟨"GET", "/foods", none, .obj [], true⟩ =
      { statusCode := 200
        headers := corsHeaders
        body := .obj [("success", .bool true),
                      ("data", .arr (foodDatabase.map foodToJs)),
                      ("message", .str "Food items retrieved from fallback data (database not available)"),
                      ("source", .str "fallback"),
                      ("debug", .str "No database client initialized")] } ∧
    foodDatabase.length = 10 :=
  c4_fallback_catalog ⟨false, []⟩ ⟨"GET", "/foods", none, .obj [], true⟩ rfl rfl
    (Or.inl rfl)

/-! ### C3: POST validation and creation -/

/-- C3 counterexample: a POST body carrying both required fields, with
`calories: 0`, is rejected with 400 even though neither field is absent —
the validation tests JS truthiness and `0` is falsy. -/
theorem c3_counterexample :
    (handler ⟨true, []⟩
        ⟨"POST", "/foods", none,
          .obj [("name", .str "Water"), ("calories", .num 0)], true⟩).statusCode = 400 ∧
    jsGet (.obj [("name", .str "Water"), ("calories", .num 0)]) "calories" = .num 0 ∧
    jsGet (.obj [("name", .str "Water"), ("calories", .num 0)]) "name" = .str "Water" :=
  ⟨rfl, rfl, rfl⟩

/-- C3 (amended): for every POST to the collection root with a well-formed
JSON object body, the handler responds 400 with `success: false` exactly
when the body's `name` or `calories` value is JS-falsy — that is, absent,
`null`, `false`, `0` or the empty string; in particular a present
`calories: 0` is also rejected.  When both values are truthy — in
particular a nonempty string name and a nonzero numeric calories — it
responds 201 with a created record whose `name` and `calories` equal the
submitted values, on the database path and the fallback path alike. -/
theorem c3_post_validation (st : DBState) (e : Event)
    (hm : e.httpMethod = "POST")
    (hp : e.path = "/foods" ∨ strEndsWith e.path "/foods" = true)
    (hw : e.bodyWellFormed = true)
    (hobj : jsIsNullish e.body = false) :
    ((handler st e).statusCode = 400 ↔
      jsTruthy (jsGet e.body "name") = false ∨
        jsTruthy (jsGet e.body "calories") = false) ∧
    ((handler st e).statusCode = 400 →
      jsGet (handler st e).body "success" = .bool false) ∧
    (∀ s n, jsGet e.body "name" = .str s → s ≠ "" →
      jsGet e.body "calories" = .num n → n ≠ 0 →
      (handler st e).statusCode = 201 ∧
      jsGet (jsGet (handler st e).body "data") "name" = .str s ∧
      jsGet (jsGet (handler st e).body "data") "calories" = .num n) := by
  rw [handler_eq_post st e hm hp]
  unfold createResponse
  simp only [hw, hobj]
  rw [if_neg (by simp), if_neg (by simp)]
  by_cases hn : jsTruthy (jsGet e.body "name") = false
  · rw [if_pos (Or.inl hn)]
    refine ⟨⟨fun _ => Or.inl hn, fun _ => rfl⟩, fun _ => rfl, ?_⟩
    intro s n hs hsne _ _
    rw [hs] at hn
    simp [jsTruthy] at hn
    exact absurd hn hsne
  · by_cases hc : jsTruthy (jsGet e.body "calories") = false
    · rw [if_pos (Or.inr hc)]
      refine ⟨⟨fun _ => Or.inr hc, fun _ => rfl⟩, fun _ => rfl, ?_⟩
      intro s n _ _ hcv hnne
      rw [hcv] at hc
      simp [jsTruthy] at hc
      exact absurd hc hnne
    · rw [if_neg (not_or.mpr ⟨hn, hc⟩)]
      refine ⟨⟨?_, fun h => absurd h (not_or.mpr ⟨hn, hc⟩)⟩, ?_, ?_⟩
      · intro h400
        exfalso
        rcases hcr : createFoodItemInDB st (jsGet e.body "name") (jsGet e.body "calories")
          with _ | item
        · rw [hcr] at h400
          simp at h400
        · rw [hcr] at h400
          simp at h400
      · intro h400
        exfalso
        rcases hcr : createFoodItemInDB st (jsGet e.body "name") (jsGet e.body "calories")
          with _ | item
        · rw [hcr] at h400
          simp at h400
        · rw [hcr] at h400
          simp at h400
      · intro s n hs hsne hcv hnne
        rw [hs, hcv]
        cases hok : st.ok
        · have : createFoodItemInDB st (.str s) (.num n) = none := by
            unfold createFoodItemInDB
            rw [hok]
            rfl
          rw [this]
          exact ⟨rfl, rfl, rfl⟩
        · have : createFoodItemInDB st (.str s) (.num n) =
              some { id := dbMaxId st.rows + 1, name := s, calories := n } := by
            unfold createFoodItemInDB
            rw [hok]
            rfl
          rw [this]
          exact ⟨rfl, rfl, rfl⟩

theorem c3_post_validation_witness :
    (handler ⟨true, []⟩
        ⟨"POST", "/foods", none,
          .obj [("name", .str "Mango"), ("calories", .num 60)], true⟩).statusCode = 201 ∧
    jsGet (jsGet (handler ⟨true, []⟩
        ⟨"POST", "/foods", none,
          .obj [("name", .str "Mango"), ("calories", .num 60)], true⟩).body "data") "name"
      = .str "Mango" ∧
    jsGet (jsGet (handler ⟨true, []⟩
        ⟨"POST", "/foods", none,
          .obj [("name", .str "Mango"), ("calories", .num 60)], true⟩).body "data") "calories"
      = .num 60 :=
  (c3_post_validation ⟨true, []⟩
      ⟨"POST", "/foods", none, .obj [("name", .str "Mango"), ("calories", .num 60)], true⟩
      rfl (Or.inl rfl) rfl rfl).2.2 "Mango" 60 rfl (by decide) rfl (by decide)

/-! ### C6 and C10: the single-id lookup -/

theorem find?_idMatch_none (l : List FoodItem) :
    l.find? (fun item => idMatch item none) = none := by
  induction l with
  | nil => rfl
  | cons x xs ih => simp [List.find?, idMatch, ih]

theorem storeLookup_eq_none_iff (st : DBState) (p : String) :
    storeLookup st p = none ↔
      ∀ item ∈ (fetchFoodItemsFromDB st).getD [], idMatch item (pathId p) = false := by
  unfold storeLookup
  cases hf : fetchFoodItemsFromDB st with
  | none => simp
  | some rows =>
    simp only [Option.getD_some]
    rw [List.find?_eq_none]
    simp

theorem fallbackLookup_eq_none_iff (p : String) :
    fallbackLookup p = none ↔ ∀ f ∈ foodDatabase, idMatch f (pathId p) = false := by
  unfold fallbackLookup
  rw [List.find?_eq_none]
  simp

/-- C6: for every GET routed to the single-id branch, the handler responds
404 with `success: false` exactly when the parsed id matches no row fetched
from the store and no entry of the fallback catalog; an id found among the
store's rows yields 200 with `source: "database"`, and an id absent there
(including when the store is unreachable) but present in the fallback
catalog yields 200 with `source: "fallback"`. -/
theorem c6_get_by_id (st : DBState) (e : Event)
    (hm : e.httpMethod = "GET")
    (hnl : ¬(e.path = "/foods" ∨ strEndsWith e.path "/foods" = true))
    (hin : strIncludes e.path "/foods/" = true)
    (hns : strIncludes e.path "/search" = false) :
    ((handler st e).statusCode = 404 ↔
      storeLookup st e.path = none ∧ fallbackLookup e.path = none) ∧
    ((handler st e).statusCode = 404 →
      jsGet (handler st e).body "success" = .bool false) ∧
    (∀ item, storeLookup st e.path = some item →
      handler st e =
        { statusCode := 200
          headers := corsHeaders
          body := .obj [("success", .bool true), ("data", foodToJs item),
                        ("source", .str "database")] }) ∧
    (storeLookup st e.path = none → ∀ f, fallbackLookup e.path = some f →
      handler st e =
        { statusCode := 200
          headers := corsHeaders
          body := .obj [("success", .bool true), ("data", foodToJs f),
                        ("source", .str "fallback")] }) ∧
    (storeLookup st e.path = none ↔
      ∀ item ∈ (fetchFoodItemsFromDB st).getD [], idMatch item (pathId e.path) = false) ∧
    (fallbackLookup e.path = none ↔
      ∀ f ∈ foodDatabase, idMatch f (pathId e.path) = false) := by
  rw [handler_eq_getById st e hm hnl hin hns]
  unfold getFoodByIdResponse
  refine ⟨?_, ?_, ?_, ?_, storeLookup_eq_none_iff st e.path,
    fallbackLookup_eq_none_iff e.path⟩
  · rcases hsl : storeLookup st e.path with _ | item
    · rcases hfl : fallbackLookup e.path with _ | f
      · simp
      · simp
    · simp
  · rcases hsl : storeLookup st e.path with _ | item
    · rcases hfl : fallbackLookup e.path with _ | f
      · intro _
        rfl
      · intro h
        simp at h
    · intro h
      simp at h
  · intro it hit
    rcases hsl : storeLookup st e.path with _ | item
    · rw [hsl] at hit
      simp at hit
    · rw [hsl] at hit
      obtain rfl := Option.some.inj hit
      rfl
  · intro hnone f hf
    rcases hsl : storeLookup st e.path with _ | item
    · rcases hfl : fallbackLookup e.path with _ | f2
      · rw [hfl] at hf
        simp at hf
      · rw [hfl] at hf
        obtain rfl := Option.some.inj hf
        rfl
    · rw [hsl] at hnone
      simp at hnone

theorem c6_get_by_id_witness :
    (handler ⟨true, []⟩ ⟨"GET", "/foods/999", none, .obj [], true⟩).statusCode = 404 :=
  ((c6_get_by_id ⟨true, []⟩ ⟨"GET", "/foods/999", none, .obj [], true⟩
      rfl (by decide) rfl rfl).1).mpr ⟨rfl, rfl⟩

/-- C10 counterexample: the path `/foods/foods` contains `/foods/`, does not
contain `/search`, and its final segment `foods` does not parse as a number,
yet the handler answers 200 (with the full fallback catalog), not 404 — the
path ends with `/foods`, so the collection-listing route captures it before
the single-id branch is reached. -/
theorem c10_counterexample :
    (handler ⟨false, []⟩ ⟨"GET", "/foods/foods", none, .obj [], true⟩).statusCode = 200 ∧
    strIncludes "/foods/foods" "/foods/" = true ∧
    strIncludes "/foods/foods" "/search" = false ∧
    jsParseInt (segLast (splitSlash "/foods/foods")) = none ∧
    jsGet (handler ⟨false, []⟩
        ⟨"GET", "/foods/foods", none, .obj [], true⟩).body "source" = .str "fallback" :=
  ⟨rfl, rfl, rfl, rfl, rfl⟩

/-- C10 (amended): for every GET whose path contains `/foods/` but not
`/search`, is not exactly `/foods` and does not end with `/foods` (a path
ending in `/foods`, such as `/foods/foods`, is captured by the
collection-listing route first), and whose final path segment does not parse
as a number, the lookup matches no item in either the store rows or the
fallback catalog and the handler returns the 404 error envelope rather than
raising an exception or returning 500. -/
theorem c10_non_numeric_id (st : DBState) (e : Event)
    (hm : e.httpMethod = "GET")
    (hnl : ¬(e.path = "/foods" ∨ strEndsWith e.path "/foods" = true))
    (hin : strIncludes e.path "/foods/" = true)
    (hns : strIncludes e.path "/search" = false)
    (hpid : pathId e.path = none) :
    handler st e =
      { statusCode := 404
        headers := corsHeaders
        body := .obj [("success", .bool false),
                      ("error", .str "Food item not found")] } := by
  rw [handler_eq_getById st e hm hnl hin hns]
  unfold getFoodByIdResponse
  have h1 : storeLookup st e.path = none := by
    unfold storeLookup
    cases hf : fetchFoodItemsFromDB st with
    | none => rfl
    | some rows =>
      simp only [hpid]
      exact find?_idMatch_none rows
  have h2 : fallbackLookup e.path = none := by
    unfold fallbackLookup
    simp only [hpid]
    exact find?_idMatch_none foodDatabase
  rw [h1, h2]

theorem c10_non_numeric_id_witness :
    handler ⟨true, [⟨1, "Apple", 95⟩]⟩ ⟨"GET", "/foods/abc", none, .obj [], true⟩ =
      { statusCode := 404
        headers := corsHeaders
        body := .obj [("success", .bool false),
                      ("error", .str "Food item not found")] } :=
  c10_non_numeric_id ⟨true, [⟨1, "Apple", 95⟩]⟩
    ⟨"GET", "/foods/abc", none, .obj [], true⟩ rfl (by decide) rfl rfl rfl

/-! ### C7: the `source` discriminator -/

/-- C7 counterexample: not every handler response carries a `source`
discriminator — the OPTIONS preflight (a 200) and the single-id 404
envelope both lack the field entirely. -/
theorem c7_counterexample :
    jsGet (handler ⟨true, []⟩
        ⟨"OPTIONS", "/foods", none, .obj [], true⟩).body "source" = .undefined ∧
    (handler ⟨true, []⟩ ⟨"OPTIONS", "/foods", none, .obj [], true⟩).statusCode = 200 ∧
    jsGet (handler ⟨true, []⟩
        ⟨"GET", "/foods/999", none, .obj [], true⟩).body "source" = .undefined ∧
    (handler ⟨true, []⟩ ⟨"GET", "/foods/999", none, .obj [], true⟩).statusCode = 404 :=
  ⟨rfl, rfl, rfl, rfl⟩

theorem source_listFoods (st : DBState) :
    jsGet (listFoodsResponse st).body "source" = .str "database" ∨
    jsGet (listFoodsResponse st).body "source" = .str "fallback" := by
  unfold listFoodsResponse
  cases hf : fetchFoodItemsFromDB st
  · exact Or.inr rfl
  · exact Or.inl rfl

theorem source_getById (st : DBState) (p : String)
    (hs : (getFoodByIdResponse st p).statusCode = 200 ∨
      (getFoodByIdResponse st p).statusCode = 201) :
    jsGet (getFoodByIdResponse st p).body "source" = .str "database" ∨
    jsGet (getFoodByIdResponse st p).body "source" = .str "fallback" := by
  unfold getFoodByIdResponse at hs ⊢
  rcases hsl : storeLookup st p with _ | item
  · rcases hfl : fallbackLookup p with _ | f
    · rw [hsl, hfl] at hs
      simp at hs
    · exact Or.inr rfl
  · exact Or.inl rfl

theorem source_search (st : DBState) (qn : Option String)
    (hs : (searchResponse st qn).statusCode = 200 ∨
      (searchResponse st qn).statusCode = 201) :
    jsGet (searchResponse st qn).body "source" = .str "database" ∨
    jsGet (searchResponse st qn).body "source" = .str "fallback" := by
  unfold searchResponse at hs ⊢
  by_cases hcond : qn = none ∨ lowerQuery qn = ""
  · rw [if_pos hcond] at hs
    simp at hs
  · rw [if_neg hcond] at hs ⊢
    cases hsr : searchFoodItemsInDB st (lowerQuery qn)
    · exact Or.inr rfl
    · exact Or.inl rfl

theorem source_create (st : DBState) (b : JsValue) (w : Bool)
    (hs : (createResponse st b w).statusCode = 200 ∨
      (createResponse st b w).statusCode = 201) :
    jsGet (createResponse st b w).body "source" = .str "database" ∨
    jsGet (createResponse st b w).body "source" = .str "fallback" := by
  unfold createResponse at hs ⊢
  by_cases h1 : w = false
  · rw [if_pos h1] at hs
    simp [serverErrorResponse] at hs
  · rw [if_neg h1] at hs ⊢
    by_cases h2 : jsIsNullish b = true
    · rw [if_pos h2] at hs
      simp [serverErrorResponse] at hs
    · rw [if_neg h2] at hs ⊢
      by_cases h3 : jsTruthy (jsGet b "name") = false ∨ jsTruthy (jsGet b "calories") = false
      · rw [if_pos h3] at hs
        simp at hs
      · rw [if_neg h3] at hs ⊢
        cases hcr : createFoodItemInDB st (jsGet b "name") (jsGet b "calories")
        · exact Or.inr rfl
        · exact Or.inl rfl

/-- C7 (amended): not every handler response carries a `source`
discriminator (the OPTIONS preflight and the 400/404/500 error envelopes
carry none), but every 200/201 response other than the OPTIONS preflight
does, and its value is `"database"` or `"fallback"`. -/
theorem c7_source_on_success (st : DBState) (e : Event)
    (hm : e.httpMethod ≠ "OPTIONS")
    (hs : (handler st e).statusCode = 200 ∨ (handler st e).statusCode = 201) :
    jsGet (handler st e).body "source" = .str "database" ∨
    jsGet (handler st e).body "source" = .str "fallback" := by
  unfold handler at hs ⊢
  rw [if_neg hm] at hs ⊢
  unfold dispatchRoute at hs ⊢
  generalize hpv : (if e.path = "" then "/" else e.path) = p at hs ⊢
  by_cases h1 : e.httpMethod = "GET" ∧ (p = "/foods" ∨ strEndsWith p "/foods" = true)
  · rw [if_pos h1] at hs ⊢
    exact source_listFoods st
  · rw [if_neg h1] at hs ⊢
    by_cases h2 : e.httpMethod = "GET" ∧ strIncludes p "/foods/" = true ∧
        strIncludes p "/search" = false
    · rw [if_pos h2] at hs ⊢
      exact source_getById st p hs
    · rw [if_neg h2] at hs ⊢
      by_cases h3 : e.httpMethod = "GET" ∧ strIncludes p "/search" = true
      · rw [if_pos h3] at hs ⊢
        exact source_search st e.queryName hs
      · rw [if_neg h3] at hs ⊢
        by_cases h4 : e.httpMethod = "POST" ∧ (p = "/foods" ∨ strEndsWith p "/foods" = true)
        · rw [if_pos h4] at hs ⊢
          exact source_create st e.body e.bodyWellFormed hs
        · rw [if_neg h4] at hs
          simp [routeNotFoundResponse] at hs

theorem c7_source_on_success_witness :
    jsGet (handler ⟨false, []⟩
        ⟨"GET", "/foods", none, .obj [], true⟩).body "source" = .str "database" ∨
    jsGet (handler ⟨false, []⟩
        ⟨"GET", "/foods", none, .obj [], true⟩).body "source" = .str "fallback" :=
  c7_source_on_success ⟨false, []⟩ ⟨"GET", "/foods", none, .obj [], true⟩
    (by decide) (Or.inl rfl)

/-! ### C9: response unwrapping in the Gateway Client -/

/-- The unwrap `getFoods` applies to the JSON value parsed from a successful
response: `result?.data && Array.isArray(result.data) ? result.data :
Array.isArray(result) ? result : []`. -/
def getFoodsUnwrap (result : JsValue) : JsValue :=
  if jsTruthy (jsGet result "data") = true ∧ jsIsArr (jsGet result "data") = true then
    jsGet result "data"
  else if jsIsArr result = true then
    result
  else
    .arr []

/-- The unwrap `searchFood` applies: `(result?.data as Food[]) || []`. -/
def searchFoodUnwrap (result : JsValue) : JsValue :=
  if jsTruthy (jsGet result "data") = true then jsGet result "data" else .arr []

/-- C9 counterexample: a `searchFood` envelope whose `data` is present but
not an array — e.g. the number 42 — is returned as-is, not replaced by the
empty sequence (`||` only tests truthiness, not arrayness). -/
theorem c9_counterexample :
    searchFoodUnwrap (.obj [("data", .num 42)]) = .num 42 ∧
    jsIsArr (.num 42) = false :=
  ⟨rfl, rfl⟩

/-- C9 (amended): `getFoods` returns the empty sequence whenever the
envelope's `data` is absent, falsy or not an array — except that a response
which is itself a bare array is returned whole; an array `data` is returned
as-is.  `searchFood` returns the empty sequence exactly when `data` is
falsy (absent, `null`, `0`, `""`, `false`); a truthy `data` is returned
as-is even when it is not an array. -/
theorem c9_lenient_unwrap :
    (∀ r : JsValue,
      (jsTruthy (jsGet r "data") = false ∨ jsIsArr (jsGet r "data") = false) →
      jsIsArr r = false → getFoodsUnwrap r = .arr []) ∧
    (∀ r : JsValue,
      (jsTruthy (jsGet r "data") = false ∨ jsIsArr (jsGet r "data") = false) →
      jsIsArr r = true → getFoodsUnwrap r = r) ∧
    (∀ (r : JsValue) (ds : List JsValue),
      jsGet r "data" = .arr ds → getFoodsUnwrap r = .arr ds) ∧
    (∀ r : JsValue, jsTruthy (jsGet r "data") = false → searchFoodUnwrap r = .arr []) ∧
    (∀ r : JsValue, jsTruthy (jsGet r "data") = true →
      searchFoodUnwrap r = jsGet r "data") := by
  refine ⟨?_, ?_, ?_, ?_, ?_⟩
  · intro r h hr
    have hcond : ¬(jsTruthy (jsGet r "data") = true ∧ jsIsArr (jsGet r "data") = true) := by
      rcases h with h | h
      · simp [h]
      · simp [h]
    unfold getFoodsUnwrap
    rw [if_neg hcond, if_neg (by simp [hr])]
  · intro r h hr
    have hcond : ¬(jsTruthy (jsGet r "data") = true ∧ jsIsArr (jsGet r "data") = true) := by
      rcases h with h | h
      · simp [h]
      · simp [h]
    unfold getFoodsUnwrap
    rw [if_neg hcond, if_pos hr]
  · intro r ds h
    unfold getFoodsUnwrap
    rw [h]
    rw [if_pos ⟨rfl, rfl⟩]
  · intro r h
    unfold searchFoodUnwrap
    rw [if_neg (by simp [h])]
  · intro r h
    unfold searchFoodUnwrap
    rw [if_pos h]

theorem c9_lenient_unwrap_witness :
    getFoodsUnwrap (.obj [("success", .bool true)]) = .arr [] ∧
    searchFoodUnwrap (.obj [("success", .bool true)]) = .arr [] :=
  ⟨c9_lenient_unwrap.1 (.obj [("success", .bool true)]) (Or.inl rfl) rfl,
   c9_lenient_unwrap.2.2.2.1 (.obj [("success", .bool true)]) rfl⟩

/-! ### C5: search semantics

The store path runs SQL `LIKE` over a `%`-wrapped pattern; the fallback path
runs a plain case-insensitive substring filter.  The two agree exactly when
the search term contains no `LIKE` metacharacter. -/

/-- A character that is not a `LIKE` metacharacter (`%`, `_`, `\`). -/
def plainChar (c : Char) : Bool :=
  c != '%' && c != '_' && c != '\\'

/-- Case-insensitive substring containment of `term` in `name`: the
specification's search predicate. -/
def containsCI (name term : String) : Bool :=
  containsList (lowerStr term).toList (lowerStr name).toList

theorem toList_mk (l : List Char) : (String.mk l).toList = l := rfl

set_option maxHeartbeats 1600000 in
theorem lowerChar_idem (c : Char) : lowerChar (lowerChar c) = lowerChar c := by
  unfold lowerChar
  split
  <;> first
    | rfl
    | (rename_i heq
       split at heq <;> simp_all)

theorem plainChar_lowerChar (c : Char) (h : plainChar c = true) :
    plainChar (lowerChar c) = true := by
  unfold lowerChar
  split
  <;> first
    | decide
    | exact h

theorem plainChar_spec (c : Char) (h : plainChar c = true) :
    c ≠ '%' ∧ c ≠ '_' ∧ c ≠ '\\' := by
  simp [plainChar] at h
  exact ⟨h.1.1, h.1.2, h.2⟩

theorem lowerStr_idem (s : String) : lowerStr (lowerStr s) = lowerStr s := by
  unfold lowerStr
  rw [toList_mk, List.map_map]
  rw [show lowerChar ∘ lowerChar = lowerChar from funext lowerChar_idem]

theorem all_plainChar_map_lower (l : List Char) (h : l.all plainChar = true) :
    (l.map lowerChar).all plainChar = true := by
  induction l with
  | nil => rfl
  | cons c l2 ih =>
    simp only [List.map_cons, List.all_cons, Bool.and_eq_true] at h ⊢
    exact ⟨plainChar_lowerChar c h.1, ih h.2⟩

theorem listSuffixes_cons (c : Char) (rest : List Char) :
    listSuffixes (c :: rest) = (c :: rest) :: listSuffixes rest := rfl

theorem containsList_cons (needle : List Char) (c : Char) (rest : List Char) :
    containsList needle (c :: rest)
      = (needle.isPrefixOf (c :: rest) || containsList needle rest) := rfl

theorem likeMatch_nil_left (s : List Char) : likeMatch [] s = s.isEmpty := rfl

theorem likeMatch_percent (p s : List Char) :
    likeMatch ('%' :: p) s = (listSuffixes s).any (fun t => likeMatch p t) := by
  rw [likeMatch.eq_def]
  dsimp only
  rw [if_pos rfl]

theorem likeMatch_plain_cons (c c2 : Char) (p s : List Char)
    (h1 : c ≠ '%') (h2 : c ≠ '_') (h3 : c ≠ '\\') :
    likeMatch (c :: p) (c2 :: s) = (c == c2 && likeMatch p s) := by
  rw [likeMatch.eq_def]
  dsimp only
  rw [if_neg h1, if_neg h3, if_neg h2]

theorem likeMatch_plain_nil (c : Char) (p : List Char)
    (h1 : c ≠ '%') (h2 : c ≠ '_') (h3 : c ≠ '\\') :
    likeMatch (c :: p) [] = false := by
  rw [likeMatch.eq_def]
  dsimp only
  rw [if_neg h1, if_neg h3, if_neg h2]

theorem suffixes_any_isEmpty (s : List Char) :
    (listSuffixes s).any (fun u => u.isEmpty) = true := by
  induction s with
  | nil => rfl
  | cons c s2 ih => simp [listSuffixes_cons, List.any_cons, ih]

theorem likeMatch_percent_nil (s : List Char) : likeMatch ['%'] s = true := by
  rw [likeMatch_percent []]
  rw [show (fun t => likeMatch [] t) = (fun u : List Char => u.isEmpty) from
    funext likeMatch_nil_left]
  exact suffixes_any_isEmpty s

theorem likeMatch_plain_append :
    ∀ p : List Char, p.all plainChar = true →
      ∀ s, likeMatch (p ++ ['%']) s = p.isPrefixOf s := by
  intro p
  induction p with
  | nil =>
    intro _ s
    simp [likeMatch_percent_nil s]
  | cons c p2 ih =>
    intro hall s
    rw [List.all_cons, Bool.and_eq_true] at hall
    obtain ⟨h1, h2, h3⟩ := plainChar_spec c hall.1
    cases s with
    | nil =>
      rw [List.cons_append, likeMatch_plain_nil c _ h1 h2 h3]
      simp
    | cons c2 s2 =>
      rw [List.cons_append, likeMatch_plain_cons c c2 _ _ h1 h2 h3,
        ih hall.2 s2, List.isPrefixOf_cons₂]

theorem containsList_eq_any (needle : List Char) :
    ∀ s, (listSuffixes s).any (fun t => needle.isPrefixOf t) = containsList needle s := by
  intro s
  induction s with
  | nil =>
    cases needle with
    | nil => rfl
    | cons c n2 => rfl
  | cons c s2 ih =>
    rw [listSuffixes_cons, List.any_cons, containsList_cons, ih]

theorem likeMatch_plain_wrap (p : List Char) (hp : p.all plainChar = true)
    (s : List Char) :
    likeMatch ('%' :: (p ++ ['%'])) s = containsList p s := by
  rw [likeMatch_percent]
  rw [show (fun t => likeMatch (p ++ ['%']) t) = (fun t => p.isPrefixOf t) from
    funext (likeMatch_plain_append p hp)]
  exact containsList_eq_any p s

/-- For a metacharacter-free term, the `LIKE` query computes exactly the
case-insensitive substring filter of the table, ordered by id. -/
theorem searchFoodItemsInDB_plain (st : DBState) (q : String) (hok : st.ok = true)
    (hpl : q.toList.all plainChar = true) :
    searchFoodItemsInDB st (lowerStr q) =
      some ((orderById st.rows).filter (fun item => containsCI item.name q)) := by
  unfold searchFoodItemsInDB
  rw [if_pos hok]
  congr 1
  apply List.filter_congr
  intro item _
  rw [lowerStr_idem]
  exact likeMatch_plain_wrap (lowerStr q).toList
    (all_plainChar_map_lower q.toList hpl) (lowerStr item.name).toList

/-- C5 counterexample: with the store row `{1, Apple, 95}` and the search
term `%`, the store path returns Apple — the `%` is a `LIKE` wildcard
matching every name — although `Apple` does not contain `%` as a substring;
the fallback path on the same term returns nothing.  The two paths therefore
do not both implement substring semantics for every term. -/
theorem c5_counterexample :
    jsGet (handler ⟨true, [⟨1, "Apple", 95⟩]⟩
        ⟨"GET", "/foods/search", some "%", .obj [], true⟩).body "data"
      = .arr [foodToJs ⟨1, "Apple", 95⟩] ∧
    containsCI "Apple" "%" = false ∧
    jsGet (handler ⟨false, []⟩
        ⟨"GET", "/foods/search", some "%", .obj [], true⟩).body "data" = .arr [] :=
  ⟨rfl, rfl, rfl⟩

/-- C5 (amended): for every search request with a present, nonempty term
containing no `LIKE` metacharacter (`%`, `_`, `\`), the result set is
exactly the items whose name contains the term as a case-insensitive
substring, ordered by ascending id — on the store path (where the rows are
returned `ORDER BY id ASC`, stated here as: some sorted-by-id list that is a
permutation of the substring-filtered rows) and on the fallback path (where
the catalog, fixed in ascending-id order, is filtered in order) alike.  For
terms carrying `LIKE` metacharacters the store path follows `LIKE`
semantics instead. -/
theorem c5_search_semantics (st : DBState) (e : Event) (q : String)
    (hm : e.httpMethod = "GET")
    (hnl : ¬(e.path = "/foods" ∨ strEndsWith e.path "/foods" = true))
    (hs : strIncludes e.path "/search" = true)
    (hq : e.queryName = some q)
    (hne : lowerStr q ≠ "") :
    (st.ok = false →
      (handler st e).statusCode = 200 ∧
      jsGet (handler st e).body "source" = .str "fallback" ∧
      jsGet (handler st e).body "data" =
        .arr ((foodDatabase.filter (fun f => containsCI f.name q)).map foodToJs) ∧
      (foodDatabase.filter (fun f => containsCI f.name q)).Pairwise byId) ∧
    (st.ok = true → q.toList.all plainChar = true →
      ∃ l : List FoodItem, (handler st e).statusCode = 200 ∧
        jsGet (handler st e).body "source" = .str "database" ∧
        jsGet (handler st e).body "data" = .arr (l.map foodToJs) ∧
        l.Perm (st.rows.filter (fun item => containsCI item.name q)) ∧
        l.Pairwise byId) := by
  rw [handler_eq_search st e hm hnl hs]
  unfold searchResponse
  rw [hq]
  rw [if_neg (by simp [lowerQuery, hne])]
  constructor
  · intro hok
    have hnone : searchFoodItemsInDB st (lowerQuery (some q)) = none := by
      unfold searchFoodItemsInDB
      simp [hok]
    rw [hnone]
    refine ⟨rfl, rfl, rfl, ?_⟩
    exact List.Pairwise.sublist (List.filter_sublist _) (by decide)
  · intro hok hpl
    have hlq : lowerQuery (some q) = lowerStr q := rfl
    rw [hlq, searchFoodItemsInDB_plain st q hok hpl]
    refine ⟨(orderById st.rows).filter (fun item => containsCI item.name q),
      rfl, rfl, rfl, ?_, ?_⟩
    · exact (List.perm_insertionSort byId st.rows).filter _
    · exact List.Pairwise.sublist (List.filter_sublist _)
        (List.sorted_insertionSort byId st.rows)

theorem c5_search_semantics_witness :
    ∃ l : List FoodItem, (handler ⟨true, [⟨5, "Pineapple", 50⟩, ⟨3, "apple pie", 20⟩]⟩
        ⟨"GET", "/foods/search", some "Apple", .obj [], true⟩).statusCode = 200 ∧
      jsGet (handler ⟨true, [⟨5, "Pineapple", 50⟩, ⟨3, "apple pie", 20⟩]⟩
        ⟨"GET", "/foods/search", some "Apple", .obj [], true⟩).body "source"
        = .str "database" ∧
      jsGet (handler ⟨true, [⟨5, "Pineapple", 50⟩, ⟨3, "apple pie", 20⟩]⟩
        ⟨"GET", "/foods/search", some "Apple", .obj [], true⟩).body "data"
        = .arr (l.map foodToJs) ∧
      l.Perm ([⟨5, "Pineapple", 50⟩, ⟨3, "apple pie", 20⟩].filter
        (fun item => containsCI item.name "Apple")) ∧
      l.Pairwise byId :=
  (c5_search_semantics ⟨true, [⟨5, "Pineapple", 50⟩, ⟨3, "apple pie", 20⟩]⟩
      ⟨"GET", "/foods/search", some "Apple", .obj [], true⟩ "Apple"
      rfl (by decide) rfl rfl (by decide)).2 rfl (by decide)

end CalorieApp
